import Mathlib

/-!
Shallow embedding of `backend/config/config.go` (package `config`) of the
PandaWiki repository: the layered configuration resolver.  Go structs become
Lean structures, `os.Getenv` becomes an explicit environment parameter
(`Env`), viper's file search/read/unmarshal step becomes an explicit
`FileOutcome` parameter, and the package-global viper key/value state backing
the generic accessors becomes an explicit `ViperStore` value.
-/

namespace PandaWiki

/-- Process environment, as `os.Getenv` sees it: an unset variable and a
variable set to the empty string are indistinguishable (both read back `""`),
which matches every use in the source (`if env := os.Getenv(...); env != ""`). -/
abbrev Env : Type := String → String

/-- Environment with no variable set: every lookup returns `""`. -/
def emptyEnv : Env := fun _ => ""

/-- Go struct `LogConfig`. -/
structure LogConfig where
  Level : Int
deriving DecidableEq, Repr

/-- Go struct `HTTPConfig`. -/
structure HTTPConfig where
  Port : Int
deriving DecidableEq, Repr

/-- Go struct `PGConfig`. -/
structure PGConfig where
  DSN : String
deriving DecidableEq, Repr

/-- Go struct `NATSConfig`. -/
structure NATSConfig where
  Server : String
  User : String
  Password : String
deriving DecidableEq, Repr

/-- Go struct `MQConfig`; the Go field `Type` is written `type` here because
`Type` is reserved in Lean (its mapstructure key is also `type`). -/
structure MQConfig where
  type : String
  NATS : NATSConfig
deriving DecidableEq, Repr

/-- Go struct `CTRAGConfig`. -/
structure CTRAGConfig where
  BaseURL : String
  APIKey : String
deriving DecidableEq, Repr

/-- Go struct `RAGConfig`. -/
structure RAGConfig where
  Provider : String
  CTRAG : CTRAGConfig
deriving DecidableEq, Repr

/-- Go struct `RedisConfig`. -/
structure RedisConfig where
  Addr : String
  Password : String
deriving DecidableEq, Repr

/-- Go struct `JWTConfig`. -/
structure JWTConfig where
  Secret : String
deriving DecidableEq, Repr

/-- Go struct `AuthConfig`; the Go field `Type` is written `type` here because
`Type` is reserved in Lean. -/
structure AuthConfig where
  type : String
  JWT : JWTConfig
deriving DecidableEq, Repr

/-- Go struct `S3Config`. -/
structure S3Config where
  Endpoint : String
  AccessKey : String
  SecretKey : String
deriving DecidableEq, Repr

/-- Go struct `Config`: the resolved configuration object. -/
structure Config where
  Log : LogConfig
  HTTP : HTTPConfig
  AdminPassword : String
  PG : PGConfig
  MQ : MQConfig
  RAG : RAGConfig
  Redis : RedisConfig
  Auth : AuthConfig
  S3 : S3Config
  CaddyAPI : String
  SubnetPrefix : String
deriving DecidableEq, Repr

/-- `getMinioEndpoint`: minio endpoint from the `MINIO_HOST` environment
variable or default. -/
def getMinioEndpoint (env : Env) : String :=
  if env "MINIO_HOST" ≠ "" then env "MINIO_HOST" ++ ":9000"
  else "panda-wiki-minio:9000"

/-- `getPostgresHost`: postgres host from the `POSTGRES_HOST` environment
variable or default. -/
def getPostgresHost (env : Env) : String :=
  if env "POSTGRES_HOST" ≠ "" then env "POSTGRES_HOST"
  else "panda-wiki-postgres"

/-- `getRedisAddr`: redis address from the `REDIS_HOST` environment variable
or default. -/
def getRedisAddr (env : Env) : String :=
  if env "REDIS_HOST" ≠ "" then env "REDIS_HOST" ++ ":6379"
  else "panda-wiki-redis:6379"

/-- `getNatsServer`: NATS server URL from the `NATS_HOST` environment
variable, falling back to a `SUBNET_PREFIX`-based address
(`fmt.Sprintf("nats://%s.13:4222", SUBNET_PREFIX)`). -/
def getNatsServer (env : Env) : String :=
  if env "NATS_HOST" ≠ "" then "nats://" ++ env "NATS_HOST" ++ ":4222"
  else
    let SUBNET_PREFIX := if env "SUBNET_PREFIX" = "" then "169.254.15" else env "SUBNET_PREFIX"
    "nats://" ++ SUBNET_PREFIX ++ ".13:4222"

/-- `getRagBaseURL`: RAG base URL from the `RAG_HOST` environment variable,
falling back to a `SUBNET_PREFIX`-based address
(`fmt.Sprintf("http://%s.18:8080/api/v1", SUBNET_PREFIX)`). -/
def getRagBaseURL (env : Env) : String :=
  if env "RAG_HOST" ≠ "" then "http://" ++ env "RAG_HOST" ++ ":8080/api/v1"
  else
    let SUBNET_PREFIX := if env "SUBNET_PREFIX" = "" then "169.254.15" else env "SUBNET_PREFIX"
    "http://" ++ SUBNET_PREFIX ++ ".18:8080/api/v1"

/-- The Postgres DSN format string
`"host=%s user=panda-wiki password=%s dbname=panda-wiki port=5432 sslmode=disable TimeZone=Asia/Shanghai"`,
which appears verbatim twice in the source (the default and the
`POSTGRES_PASSWORD` override). -/
def postgresDSN (host password : String) : String :=
  "host=" ++ host ++ " user=panda-wiki password=" ++ password ++
    " dbname=panda-wiki port=5432 sslmode=disable TimeZone=Asia/Shanghai"

/-- The `defaultConfig` literal built at the top of `NewConfig`.  `NewConfig`
also computes a local `SUBNET_PREFIX` from the environment there, but that
local is never read: the `SubnetPrefix` field receives the literal
`"169.254.15"`. -/
def defaultConfig (env : Env) : Config :=
  { Log := { Level := 0 }
    AdminPassword := ""
    HTTP := { Port := 8000 }
    PG := { DSN := postgresDSN (getPostgresHost env) "panda-wiki-secret" }
    MQ := { type := "nats"
            NATS := { Server := getNatsServer env
                      User := "panda-wiki"
                      Password := "" } }
    RAG := { Provider := "ct"
             CTRAG := { BaseURL := getRagBaseURL env
                        APIKey := "sk-1234567890" } }
    Redis := { Addr := getRedisAddr env
               Password := "" }
    Auth := { type := "jwt"
              JWT := { Secret := "" } }
    S3 := { Endpoint := getMinioEndpoint env
            AccessKey := "s3panda-wiki"
            SecretKey := "" }
    CaddyAPI := "/app/run/caddy-admin.sock"
    SubnetPrefix := "169.254.15" }

/-- Statement `if env := os.Getenv("POSTGRES_PASSWORD"); env != "" { c.PG.DSN = fmt.Sprintf(..., getPostgresHost(), env) }`
of `overrideWithEnv`. -/
def ovPostgresPassword (env : Env) (c : Config) : Config :=
  if env "POSTGRES_PASSWORD" ≠ "" then
    { c with PG := { DSN := postgresDSN (getPostgresHost env) (env "POSTGRES_PASSWORD") } }
  else c

/-- Statement `if env := os.Getenv("NATS_PASSWORD"); env != "" { c.MQ.NATS.Password = env }`
of `overrideWithEnv`. -/
def ovNatsPassword (env : Env) (c : Config) : Config :=
  if env "NATS_PASSWORD" ≠ "" then
    { c with MQ := { c.MQ with NATS := { c.MQ.NATS with Password := env "NATS_PASSWORD" } } }
  else c

/-- Statement `if env := os.Getenv("REDIS_PASSWORD"); env != "" { c.Redis.Password = env }`
of `overrideWithEnv`. -/
def ovRedisPassword (env : Env) (c : Config) : Config :=
  if env "REDIS_PASSWORD" ≠ "" then
    { c with Redis := { c.Redis with Password := env "REDIS_PASSWORD" } }
  else c

/-- Statement `if env := os.Getenv("JWT_SECRET"); env != "" { c.Auth.JWT.Secret = env }`
of `overrideWithEnv`. -/
def ovJwtSecret (env : Env) (c : Config) : Config :=
  if env "JWT_SECRET" ≠ "" then
    { c with Auth := { c.Auth with JWT := { Secret := env "JWT_SECRET" } } }
  else c

/-- Statement `if env := os.Getenv("S3_SECRET_KEY"); env != "" { c.S3.SecretKey = env }`
of `overrideWithEnv`. -/
def ovS3SecretKey (env : Env) (c : Config) : Config :=
  if env "S3_SECRET_KEY" ≠ "" then
    { c with S3 := { c.S3 with SecretKey := env "S3_SECRET_KEY" } }
  else c

/-- Statement `if env := os.Getenv("ADMIN_PASSWORD"); env != "" { c.AdminPassword = env }`
of `overrideWithEnv`. -/
def ovAdminPassword (env : Env) (c : Config) : Config :=
  if env "ADMIN_PASSWORD" ≠ "" then
    { c with AdminPassword := env "ADMIN_PASSWORD" }
  else c

/-- Statement `if env := os.Getenv("SUBNET_PREFIX"); env != "" { c.SubnetPrefix = env }`
of `overrideWithEnv`. -/
def ovSubnetPrefix (env : Env) (c : Config) : Config :=
  if env "SUBNET_PREFIX" ≠ "" then
    { c with SubnetPrefix := env "SUBNET_PREFIX" }
  else c

/-- Statement `if env := os.Getenv("PG_DSN"); env != "" { c.PG.DSN = env }`
of `overrideWithEnv`. -/
def ovPgDsn (env : Env) (c : Config) : Config :=
  if env "PG_DSN" ≠ "" then
    { c with PG := { DSN := env "PG_DSN" } }
  else c

/-- Statement `if env := os.Getenv("MQ_NATS_SERVER"); env != "" { c.MQ.NATS.Server = env }`
of `overrideWithEnv`. -/
def ovMqNatsServer (env : Env) (c : Config) : Config :=
  if env "MQ_NATS_SERVER" ≠ "" then
    { c with MQ := { c.MQ with NATS := { c.MQ.NATS with Server := env "MQ_NATS_SERVER" } } }
  else c

/-- Statement `if env := os.Getenv("RAG_CT_RAG_BASE_URL"); env != "" { c.RAG.CTRAG.BaseURL = env }`
of `overrideWithEnv`. -/
def ovRagBaseUrl (env : Env) (c : Config) : Config :=
  if env "RAG_CT_RAG_BASE_URL" ≠ "" then
    { c with RAG := { c.RAG with CTRAG := { c.RAG.CTRAG with BaseURL := env "RAG_CT_RAG_BASE_URL" } } }
  else c

/-- Statement `if env := os.Getenv("REDIS_ADDR"); env != "" { c.Redis.Addr = env }`
of `overrideWithEnv`. -/
def ovRedisAddr (env : Env) (c : Config) : Config :=
  if env "REDIS_ADDR" ≠ "" then
    { c with Redis := { c.Redis with Addr := env "REDIS_ADDR" } }
  else c

/-- Statement `if env := os.Getenv("S3_ENDPOINT"); env != "" { c.S3.Endpoint = env }`
of `overrideWithEnv`. -/
def ovS3Endpoint (env : Env) (c : Config) : Config :=
  if env "S3_ENDPOINT" ≠ "" then
    { c with S3 := { c.S3 with Endpoint := env "S3_ENDPOINT" } }
  else c

/-- `overrideWithEnv`: override sensitive info with environment variables.
The body is the twelve `if`-statements of the source applied in the source's
textual order (each one named `ov...` above), so the later `PG_DSN` write
supersedes the earlier `POSTGRES_PASSWORD` write when both variables are
set. -/
def overrideWithEnv (env : Env) (c : Config) : Config :=
  ovS3Endpoint env (ovRedisAddr env (ovRagBaseUrl env (ovMqNatsServer env (ovPgDsn env
    (ovSubnetPrefix env (ovAdminPassword env (ovS3SecretKey env (ovJwtSecret env
      (ovRedisPassword env (ovNatsPassword env (ovPostgresPassword env c)))))))))))

/-- A successfully parsed configuration file: one optional value per
mapstructure key the file may set.  `viper.Unmarshal` overlays exactly the
keys present in the file onto the default-populated structure, leaving the
rest untouched. -/
structure FilePatch where
  logLevel : Option Int := none
  httpPort : Option Int := none
  adminPassword : Option String := none
  pgDsn : Option String := none
  mqType : Option String := none
  natsServer : Option String := none
  natsUser : Option String := none
  natsPassword : Option String := none
  ragProvider : Option String := none
  ctragBaseURL : Option String := none
  ctragAPIKey : Option String := none
  redisAddr : Option String := none
  redisPassword : Option String := none
  authType : Option String := none
  jwtSecret : Option String := none
  s3Endpoint : Option String := none
  s3AccessKey : Option String := none
  s3SecretKey : Option String := none
  caddyAPI : Option String := none
  subnetPrefix : Option String := none
deriving DecidableEq, Repr

/-- The field-level overlay performed by `viper.Unmarshal(defaultConfig)`:
each key present in the file replaces the corresponding field, every other
field keeps its current value. -/
def applyPatch (p : FilePatch) (c : Config) : Config :=
  { Log := { Level := p.logLevel.getD c.Log.Level }
    HTTP := { Port := p.httpPort.getD c.HTTP.Port }
    AdminPassword := p.adminPassword.getD c.AdminPassword
    PG := { DSN := p.pgDsn.getD c.PG.DSN }
    MQ := { type := p.mqType.getD c.MQ.type
            NATS := { Server := p.natsServer.getD c.MQ.NATS.Server
                      User := p.natsUser.getD c.MQ.NATS.User
                      Password := p.natsPassword.getD c.MQ.NATS.Password } }
    RAG := { Provider := p.ragProvider.getD c.RAG.Provider
             CTRAG := { BaseURL := p.ctragBaseURL.getD c.RAG.CTRAG.BaseURL
                        APIKey := p.ctragAPIKey.getD c.RAG.CTRAG.APIKey } }
    Redis := { Addr := p.redisAddr.getD c.Redis.Addr
               Password := p.redisPassword.getD c.Redis.Password }
    Auth := { type := p.authType.getD c.Auth.type
              JWT := { Secret := p.jwtSecret.getD c.Auth.JWT.Secret } }
    S3 := { Endpoint := p.s3Endpoint.getD c.S3.Endpoint
            AccessKey := p.s3AccessKey.getD c.S3.AccessKey
            SecretKey := p.s3SecretKey.getD c.S3.SecretKey }
    CaddyAPI := p.caddyAPI.getD c.CaddyAPI
    SubnetPrefix := p.subnetPrefix.getD c.SubnetPrefix }

/-- Outcome of viper's configuration-file step, with exactly the cases
`NewConfig` distinguishes: `viper.ReadInConfig` returning a
`ConfigFileNotFoundError` (`notFound`), `ReadInConfig` returning any other
error (`readError`), a file read and parsed into a patch (`found`), or a file
whose contents `viper.Unmarshal` fails to merge onto the structure
(`foundUnmergeable`). -/
inductive FileOutcome where
  | notFound
  | readError
  | found (p : FilePatch)
  | foundUnmergeable
deriving DecidableEq, Repr

/-- The two error returns of `NewConfig`: the non-not-found `ReadInConfig`
error and the `viper.Unmarshal` error. -/
inductive ConfigError where
  | readError
  | unmarshalError
deriving DecidableEq, Repr

/-- `NewConfig`: build the default configuration, try to read the file (a
`ConfigFileNotFoundError` is swallowed, any other read error is returned),
merge the file's values onto the defaults with `viper.Unmarshal` (its error
is returned), then apply `overrideWithEnv` and return the result. -/
def NewConfig (env : Env) (file : FileOutcome) : Except ConfigError Config :=
  match file with
  | .readError => .error .readError
  | .foundUnmergeable => .error .unmarshalError
  | .notFound => .ok (overrideWithEnv env (defaultConfig env))
  | .found p => .ok (overrideWithEnv env (applyPatch p (defaultConfig env)))

/-- A scalar value as viper stores it after parsing the yml file: a string,
an integer, a boolean or a list of strings. -/
inductive GoValue where
  | str (s : String)
  | int (n : Int)
  | bool (b : Bool)
  | strList (l : List String)
deriving DecidableEq, Repr

/-- Modelled from the spec: viper's fail-soft coercion to `string`
("return the merged value coerced to that type"; a malformed value yields the
type's zero value).  viper's own cast rules are third-party code outside the
repository. -/
def GoValue.toGoString : GoValue → String
  | .str s => s
  | .int n => toString n
  | .bool b => if b then "true" else "false"
  | .strList _ => ""

/-- Modelled from the spec: viper's fail-soft coercion to `int`. -/
def GoValue.toGoInt : GoValue → Int
  | .str s => (s.toInt?).getD 0
  | .int n => n
  | .bool b => if b then 1 else 0
  | .strList _ => 0

/-- Modelled from the spec: viper's fail-soft coercion to `uint64`. -/
def GoValue.toGoUint64 : GoValue → Nat
  | .str s => (s.toNat?).getD 0
  | .int n => n.toNat
  | .bool b => if b then 1 else 0
  | .strList _ => 0

/-- Modelled from the spec: viper's fail-soft coercion to `bool`. -/
def GoValue.toGoBool : GoValue → Bool
  | .str s => s = "true" || s = "1"
  | .int n => n != 0
  | .bool b => b
  | .strList _ => false

/-- Modelled from the spec: viper's fail-soft coercion to `float64`. -/
def GoValue.toGoFloat64 : GoValue → Float
  | .str _ => 0
  | .int n => Float.ofInt n
  | .bool b => if b then 1 else 0
  | .strList _ => 0

/-- Modelled from the spec: viper's fail-soft coercion to `[]string`. -/
def GoValue.toGoStringSlice : GoValue → List String
  | .str s => [s]
  | .int _ => []
  | .bool _ => []
  | .strList l => l

/-- The package-global viper key/value state: each dotted key to the value it
holds, `none` when absent. -/
abbrev ViperStore : Type := String → Option GoValue

/-- The key/value view of a parsed configuration file, keyed by the dotted
mapstructure paths of the `Config` tree. -/
def patchStore (p : FilePatch) : ViperStore := fun key =>
  match key with
  | "log.level" => p.logLevel.map .int
  | "http.port" => p.httpPort.map .int
  | "admin_password" => p.adminPassword.map .str
  | "pg.dsn" => p.pgDsn.map .str
  | "mq.type" => p.mqType.map .str
  | "mq.nats.server" => p.natsServer.map .str
  | "mq.nats.user" => p.natsUser.map .str
  | "mq.nats.password" => p.natsPassword.map .str
  | "rag.provider" => p.ragProvider.map .str
  | "rag.ct_rag.base_url" => p.ctragBaseURL.map .str
  | "rag.ct_rag.api_key" => p.ctragAPIKey.map .str
  | "redis.addr" => p.redisAddr.map .str
  | "redis.password" => p.redisPassword.map .str
  | "auth.type" => p.authType.map .str
  | "auth.jwt.secret" => p.jwtSecret.map .str
  | "s3.endpoint" => p.s3Endpoint.map .str
  | "s3.access_key" => p.s3AccessKey.map .str
  | "s3.secret_key" => p.s3SecretKey.map .str
  | "caddy_api" => p.caddyAPI.map .str
  | "subnet_prefix" => p.subnetPrefix.map .str
  | _ => none

/-- The viper state the `Get*` accessors read after `NewConfig` ran: the
source never calls `viper.SetDefault`, `viper.Set`, `viper.BindEnv` or
`viper.AutomaticEnv`, so viper holds exactly the configuration file's
contents when one was parsed and nothing at all otherwise (`defaultConfig`
and `overrideWithEnv` touch only the Go struct, never viper). -/
def viperStore (file : FileOutcome) : ViperStore :=
  match file with
  | .found p => patchStore p
  | _ => fun _ => none

/-- `(*Config).GetString`: delegates to `viper.GetString`, ignoring the
receiver. -/
def GetString (st : ViperStore) (key : String) : String :=
  match st key with
  | some v => v.toGoString
  | none => ""

/-- `(*Config).GetInt`: delegates to `viper.GetInt`, ignoring the receiver. -/
def GetInt (st : ViperStore) (key : String) : Int :=
  match st key with
  | some v => v.toGoInt
  | none => 0

/-- `(*Config).GetUint64`: delegates to `viper.GetUint64`, ignoring the
receiver. -/
def GetUint64 (st : ViperStore) (key : String) : Nat :=
  match st key with
  | some v => v.toGoUint64
  | none => 0

/-- `(*Config).GetBool`: delegates to `viper.GetBool`, ignoring the
receiver. -/
def GetBool (st : ViperStore) (key : String) : Bool :=
  match st key with
  | some v => v.toGoBool
  | none => false

/-- `(*Config).GetStringSlice`: delegates to `viper.GetStringSlice`, ignoring
the receiver. -/
def GetStringSlice (st : ViperStore) (key : String) : List String :=
  match st key with
  | some v => v.toGoStringSlice
  | none => []

/-- `(*Config).GetFloat64`: delegates to `viper.GetFloat64`, ignoring the
receiver. -/
def GetFloat64 (st : ViperStore) (key : String) : Float :=
  match st key with
  | some v => v.toGoFloat64
  | none => 0

/-- The key/value view of a resolved `Config` tree, keyed by the dotted
mapstructure paths; used to phrase what the spec calls the "merged
(default+file) value" of a key. -/
def configStore (c : Config) : ViperStore := fun key =>
  match key with
  | "log.level" => some (.int c.Log.Level)
  | "http.port" => some (.int c.HTTP.Port)
  | "admin_password" => some (.str c.AdminPassword)
  | "pg.dsn" => some (.str c.PG.DSN)
  | "mq.type" => some (.str c.MQ.type)
  | "mq.nats.server" => some (.str c.MQ.NATS.Server)
  | "mq.nats.user" => some (.str c.MQ.NATS.User)
  | "mq.nats.password" => some (.str c.MQ.NATS.Password)
  | "rag.provider" => some (.str c.RAG.Provider)
  | "rag.ct_rag.base_url" => some (.str c.RAG.CTRAG.BaseURL)
  | "rag.ct_rag.api_key" => some (.str c.RAG.CTRAG.APIKey)
  | "redis.addr" => some (.str c.Redis.Addr)
  | "redis.password" => some (.str c.Redis.Password)
  | "auth.type" => some (.str c.Auth.type)
  | "auth.jwt.secret" => some (.str c.Auth.JWT.Secret)
  | "s3.endpoint" => some (.str c.S3.Endpoint)
  | "s3.access_key" => some (.str c.S3.AccessKey)
  | "s3.secret_key" => some (.str c.S3.SecretKey)
  | "caddy_api" => some (.str c.CaddyAPI)
  | "subnet_prefix" => some (.str c.SubnetPrefix)
  | _ => none

/-- Modelled from the spec: the store the spec's accessor contract describes,
holding "the merged (default+file) value" of each key — the file's value when
the file sets the key, otherwise the compiled-in default.  Built only to be
compared with `viperStore`, the state the source's accessors actually read. -/
def specMergedStore (env : Env) (file : FileOutcome) : ViperStore := fun key =>
  match viperStore file key with
  | some v => some v
  | none => configStore (defaultConfig env) key

/-- Substring test (`sub` occurs inside `s`), used to state the spec's
"the resolved DSN contains ..." sentences. -/
def containsSub (s sub : String) : Bool :=
  decide (sub.data <:+: s.data)

/-- Finite description of an environment for concrete inputs: each listed
variable holds the paired value, every other variable is unset. -/
def envOf (l : List (String × String)) : Env := fun k =>
  ((l.find? (fun kv => kv.1 == k)).map Prod.snd).getD ""

lemma ovPostgresPassword_eq (env : Env) (c : Config) : ovPostgresPassword env c =
    ⟨c.Log, c.HTTP, c.AdminPassword,
     ⟨if env "POSTGRES_PASSWORD" ≠ "" then
        postgresDSN (getPostgresHost env) (env "POSTGRES_PASSWORD") else c.PG.DSN⟩,
     c.MQ, c.RAG, c.Redis, c.Auth, c.S3, c.CaddyAPI, c.SubnetPrefix⟩ := by
  unfold ovPostgresPassword; split <;> simp_all

lemma ovNatsPassword_eq (env : Env) (c : Config) : ovNatsPassword env c =
    ⟨c.Log, c.HTTP, c.AdminPassword, c.PG,
     ⟨c.MQ.type, ⟨c.MQ.NATS.Server, c.MQ.NATS.User,
       if env "NATS_PASSWORD" ≠ "" then env "NATS_PASSWORD" else c.MQ.NATS.Password⟩⟩,
     c.RAG, c.Redis, c.Auth, c.S3, c.CaddyAPI, c.SubnetPrefix⟩ := by
  unfold ovNatsPassword; split <;> simp_all

lemma ovRedisPassword_eq (env : Env) (c : Config) : ovRedisPassword env c =
    ⟨c.Log, c.HTTP, c.AdminPassword, c.PG, c.MQ, c.RAG,
     ⟨c.Redis.Addr, if env "REDIS_PASSWORD" ≠ "" then env "REDIS_PASSWORD" else c.Redis.Password⟩,
     c.Auth, c.S3, c.CaddyAPI, c.SubnetPrefix⟩ := by
  unfold ovRedisPassword; split <;> simp_all

lemma ovJwtSecret_eq (env : Env) (c : Config) : ovJwtSecret env c =
    ⟨c.Log, c.HTTP, c.AdminPassword, c.PG, c.MQ, c.RAG, c.Redis,
     ⟨c.Auth.type, ⟨if env "JWT_SECRET" ≠ "" then env "JWT_SECRET" else c.Auth.JWT.Secret⟩⟩,
     c.S3, c.CaddyAPI, c.SubnetPrefix⟩ := by
  unfold ovJwtSecret; split <;> simp_all

lemma ovS3SecretKey_eq (env : Env) (c : Config) : ovS3SecretKey env c =
    ⟨c.Log, c.HTTP, c.AdminPassword, c.PG, c.MQ, c.RAG, c.Redis, c.Auth,
     ⟨c.S3.Endpoint, c.S3.AccessKey,
      if env "S3_SECRET_KEY" ≠ "" then env "S3_SECRET_KEY" else c.S3.SecretKey⟩,
     c.CaddyAPI, c.SubnetPrefix⟩ := by
  unfold ovS3SecretKey; split <;> simp_all

lemma ovAdminPassword_eq (env : Env) (c : Config) : ovAdminPassword env c =
    ⟨c.Log, c.HTTP,
     (if env "ADMIN_PASSWORD" ≠ "" then env "ADMIN_PASSWORD" else c.AdminPassword),
     c.PG, c.MQ, c.RAG, c.Redis, c.Auth, c.S3, c.CaddyAPI, c.SubnetPrefix⟩ := by
  unfold ovAdminPassword; split <;> simp_all

lemma ovSubnetPrefix_eq (env : Env) (c : Config) : ovSubnetPrefix env c =
    ⟨c.Log, c.HTTP, c.AdminPassword, c.PG, c.MQ, c.RAG, c.Redis, c.Auth, c.S3, c.CaddyAPI,
     (if env "SUBNET_PREFIX" ≠ "" then env "SUBNET_PREFIX" else c.SubnetPrefix)⟩ := by
  unfold ovSubnetPrefix; split <;> simp_all

lemma ovPgDsn_eq (env : Env) (c : Config) : ovPgDsn env c =
    ⟨c.Log, c.HTTP, c.AdminPassword,
     ⟨if env "PG_DSN" ≠ "" then env "PG_DSN" else c.PG.DSN⟩,
     c.MQ, c.RAG, c.Redis, c.Auth, c.S3, c.CaddyAPI, c.SubnetPrefix⟩ := by
  unfold ovPgDsn; split <;> simp_all

lemma ovMqNatsServer_eq (env : Env) (c : Config) : ovMqNatsServer env c =
    ⟨c.Log, c.HTTP, c.AdminPassword, c.PG,
     ⟨c.MQ.type, ⟨if env "MQ_NATS_SERVER" ≠ "" then env "MQ_NATS_SERVER" else c.MQ.NATS.Server,
       c.MQ.NATS.User, c.MQ.NATS.Password⟩⟩,
     c.RAG, c.Redis, c.Auth, c.S3, c.CaddyAPI, c.SubnetPrefix⟩ := by
  unfold ovMqNatsServer; split <;> simp_all

lemma ovRagBaseUrl_eq (env : Env) (c : Config) : ovRagBaseUrl env c =
    ⟨c.Log, c.HTTP, c.AdminPassword, c.PG, c.MQ,
     ⟨c.RAG.Provider,
      ⟨if env "RAG_CT_RAG_BASE_URL" ≠ "" then env "RAG_CT_RAG_BASE_URL" else c.RAG.CTRAG.BaseURL,
       c.RAG.CTRAG.APIKey⟩⟩,
     c.Redis, c.Auth, c.S3, c.CaddyAPI, c.SubnetPrefix⟩ := by
  unfold ovRagBaseUrl; split <;> simp_all

lemma ovRedisAddr_eq (env : Env) (c : Config) : ovRedisAddr env c =
    ⟨c.Log, c.HTTP, c.AdminPassword, c.PG, c.MQ, c.RAG,
     ⟨if env "REDIS_ADDR" ≠ "" then env "REDIS_ADDR" else c.Redis.Addr, c.Redis.Password⟩,
     c.Auth, c.S3, c.CaddyAPI, c.SubnetPrefix⟩ := by
  unfold ovRedisAddr; split <;> simp_all

lemma ovS3Endpoint_eq (env : Env) (c : Config) : ovS3Endpoint env c =
    ⟨c.Log, c.HTTP, c.AdminPassword, c.PG, c.MQ, c.RAG, c.Redis, c.Auth,
     ⟨if env "S3_ENDPOINT" ≠ "" then env "S3_ENDPOINT" else c.S3.Endpoint,
      c.S3.AccessKey, c.S3.SecretKey⟩,
     c.CaddyAPI, c.SubnetPrefix⟩ := by
  unfold ovS3Endpoint; split <;> simp_all

/-- Closed form of `overrideWithEnv`: each allow-listed field becomes a
conditional on its environment variable, with the two `PG.DSN` writes stacked
in source order (`PG_DSN` outermost), and every other field passed through. -/
lemma overrideWithEnv_eq (env : Env) (c : Config) :
    overrideWithEnv env c =
    ⟨c.Log, c.HTTP,
     (if env "ADMIN_PASSWORD" ≠ "" then env "ADMIN_PASSWORD" else c.AdminPassword),
     ⟨if env "PG_DSN" ≠ "" then env "PG_DSN"
       else if env "POSTGRES_PASSWORD" ≠ "" then
         postgresDSN (getPostgresHost env) (env "POSTGRES_PASSWORD")
       else c.PG.DSN⟩,
     ⟨c.MQ.type,
      ⟨if env "MQ_NATS_SERVER" ≠ "" then env "MQ_NATS_SERVER" else c.MQ.NATS.Server,
       c.MQ.NATS.User,
       if env "NATS_PASSWORD" ≠ "" then env "NATS_PASSWORD" else c.MQ.NATS.Password⟩⟩,
     ⟨c.RAG.Provider,
      ⟨if env "RAG_CT_RAG_BASE_URL" ≠ "" then env "RAG_CT_RAG_BASE_URL" else c.RAG.CTRAG.BaseURL,
       c.RAG.CTRAG.APIKey⟩⟩,
     ⟨if env "REDIS_ADDR" ≠ "" then env "REDIS_ADDR" else c.Redis.Addr,
      if env "REDIS_PASSWORD" ≠ "" then env "REDIS_PASSWORD" else c.Redis.Password⟩,
     ⟨c.Auth.type, ⟨if env "JWT_SECRET" ≠ "" then env "JWT_SECRET" else c.Auth.JWT.Secret⟩⟩,
     ⟨if env "S3_ENDPOINT" ≠ "" then env "S3_ENDPOINT" else c.S3.Endpoint,
      c.S3.AccessKey,
      if env "S3_SECRET_KEY" ≠ "" then env "S3_SECRET_KEY" else c.S3.SecretKey⟩,
     c.CaddyAPI,
     (if env "SUBNET_PREFIX" ≠ "" then env "SUBNET_PREFIX" else c.SubnetPrefix)⟩ := by
  simp only [overrideWithEnv, ovPostgresPassword_eq, ovNatsPassword_eq, ovRedisPassword_eq,
    ovJwtSecret_eq, ovS3SecretKey_eq, ovAdminPassword_eq, ovSubnetPrefix_eq, ovPgDsn_eq,
    ovMqNatsServer_eq, ovRagBaseUrl_eq, ovRedisAddr_eq, ovS3Endpoint_eq]

/-- Claim C1, counterexample: the claim "if POSTGRES_PASSWORD is set and
non-empty, the resolved database DSN contains the environment value" fails
when the full-DSN escape hatch is also set.  With
POSTGRES_PASSWORD="envpass", PG_DSN="host=other dbname=x" and a file that
sets its own DSN, resolution succeeds but the resolved DSN is the PG_DSN
string, which does not contain "envpass". -/
theorem C1_counterexample :
    (NewConfig (envOf [("POSTGRES_PASSWORD", "envpass"), ("PG_DSN", "host=other dbname=x")])
        (FileOutcome.found { pgDsn := some "host=f user=u password=filepass" })).toOption.map
      (fun c => containsSub c.PG.DSN "envpass") = some false := by
  decide

/-- Claim C1 (amended): provided the full-DSN escape hatch `PG_DSN` is unset,
environment beats file beats default for the database password: a non-empty
`POSTGRES_PASSWORD` makes the resolved DSN the full connection-string
template rebuilt around the environment value; with it unset or empty, a
file-supplied DSN is kept; with neither, the DSN is the default template
(password "panda-wiki-secret"). -/
theorem C1_db_password_layering (env : Env) (p : FilePatch) (c : Config)
    (hdsn : env "PG_DSN" = "")
    (h : NewConfig env (FileOutcome.found p) = Except.ok c) :
    (env "POSTGRES_PASSWORD" ≠ "" →
      c.PG.DSN = postgresDSN (getPostgresHost env) (env "POSTGRES_PASSWORD")) ∧
    (env "POSTGRES_PASSWORD" = "" → ∀ d, p.pgDsn = some d → c.PG.DSN = d) ∧
    (env "POSTGRES_PASSWORD" = "" → p.pgDsn = none →
      c.PG.DSN = postgresDSN (getPostgresHost env) "panda-wiki-secret") := by
  simp only [NewConfig, Except.ok.injEq] at h
  subst h
  refine ⟨fun h1 => ?_, fun h1 d hd => ?_, fun h1 h2 => ?_⟩
  · simp [overrideWithEnv_eq, hdsn, h1]
  · simp [overrideWithEnv_eq, applyPatch, hdsn, h1, hd]
  · simp [overrideWithEnv_eq, applyPatch, defaultConfig, hdsn, h1, h2]

/-- Claim C1, witness: with POSTGRES_PASSWORD="envpass", no PG_DSN, and a
file that sets its own DSN, the resolved DSN is the rebuilt template around
"envpass". -/
theorem C1_db_password_layering_witness :
    (overrideWithEnv (envOf [("POSTGRES_PASSWORD", "envpass")])
        (applyPatch { pgDsn := some "filedsn" }
          (defaultConfig (envOf [("POSTGRES_PASSWORD", "envpass")])))).PG.DSN
      = postgresDSN "panda-wiki-postgres" "envpass" :=
  ((C1_db_password_layering (envOf [("POSTGRES_PASSWORD", "envpass")])
      { pgDsn := some "filedsn" } _ rfl rfl).1 (by decide)).trans rfl

/-- Claim C2, counterexample: the claim says all four derivable services
(including the cache/store address) follow a prefix-substituted template.
With no REDIS_HOST and network prefix "10.0.0", the redis address is the
fixed literal "panda-wiki-redis:6379", which does not mention the prefix
at all: it is not any template evaluated at "10.0.0". -/
theorem C2_counterexample :
    getRedisAddr (envOf [("SUBNET_PREFIX", "10.0.0")]) = "panda-wiki-redis:6379" ∧
    containsSub (getRedisAddr (envOf [("SUBNET_PREFIX", "10.0.0")])) "10.0.0" = false :=
  ⟨rfl, by decide⟩

/-- Claim C2 (amended): with the per-service host variables unset and a
non-empty network prefix P, only the message-broker address
("nats://P.13:4222") and the retrieval-service base URL
("http://P.18:8080/api/v1") are derived from P; the cache/store address, the
database host and the object-store endpoint default to fixed hostnames
independent of the prefix. -/
theorem C2_derived_addresses (env : Env)
    (hn : env "NATS_HOST" = "") (hr : env "RAG_HOST" = "")
    (hredis : env "REDIS_HOST" = "") (hpg : env "POSTGRES_HOST" = "")
    (hminio : env "MINIO_HOST" = "") (hp : env "SUBNET_PREFIX" ≠ "") :
    getNatsServer env = "nats://" ++ env "SUBNET_PREFIX" ++ ".13:4222" ∧
    getRagBaseURL env = "http://" ++ env "SUBNET_PREFIX" ++ ".18:8080/api/v1" ∧
    getRedisAddr env = "panda-wiki-redis:6379" ∧
    getPostgresHost env = "panda-wiki-postgres" ∧
    getMinioEndpoint env = "panda-wiki-minio:9000" := by
  simp [getNatsServer, getRagBaseURL, getRedisAddr, getPostgresHost, getMinioEndpoint,
    hn, hr, hredis, hpg, hminio, hp]

/-- Claim C2, witness: with prefix "10.0.0" and no NATS_HOST, the broker
address is "nats://10.0.0.13:4222". -/
theorem C2_derived_addresses_witness :
    getNatsServer (envOf [("SUBNET_PREFIX", "10.0.0")]) = "nats://10.0.0.13:4222" :=
  ((C2_derived_addresses (envOf [("SUBNET_PREFIX", "10.0.0")])
      rfl rfl rfl rfl rfl (by decide)).1).trans rfl

/-- Claim C3: `NewConfig` returns an error exactly when the file step was a
non-not-found read error or an unmergeable file; a file-not-found outcome is
not an error, and resolution then returns the default-populated
configuration (exactly the defaults when no environment variable is set). -/
theorem C3_missing_file_not_error :
    (∀ (env : Env) (file : FileOutcome),
      (∃ e, NewConfig env file = Except.error e) ↔
        file = FileOutcome.readError ∨ file = FileOutcome.foundUnmergeable) ∧
    (∀ env : Env, NewConfig env FileOutcome.notFound =
      Except.ok (overrideWithEnv env (defaultConfig env))) ∧
    NewConfig emptyEnv FileOutcome.notFound = Except.ok (defaultConfig emptyEnv) := by
  refine ⟨fun env file => ?_, fun env => rfl, ?_⟩
  · cases file <;> simp [NewConfig]
  · rfl

/-- Claim C4, counterexample: the generic accessor does not return the merged
default+file value.  With no configuration file, the merged default+file
value of "http.port" is the default 8000, but `GetInt` reads viper's state,
which never receives the compiled-in defaults, and returns 0. -/
theorem C4_counterexample :
    GetInt (viperStore FileOutcome.notFound) "http.port" = 0 ∧
    GetInt (specMergedStore emptyEnv FileOutcome.notFound) "http.port" = 8000 :=
  ⟨rfl, rfl⟩

/-- Claim C4 (amended): for every key and requested scalar type the generic
accessor returns the file-layer value coerced to that type, or the type's
zero value when the key is absent from the file (in particular every key on
a missing file); it never raises an error and reflects neither the
compiled-in defaults nor the environment-override pass. -/
theorem C4_accessor_file_layer_only (p : FilePatch) (key : String) :
    (patchStore p key = none →
      GetString (viperStore (FileOutcome.found p)) key = "" ∧
      GetInt (viperStore (FileOutcome.found p)) key = 0 ∧
      GetUint64 (viperStore (FileOutcome.found p)) key = 0 ∧
      GetBool (viperStore (FileOutcome.found p)) key = false ∧
      GetStringSlice (viperStore (FileOutcome.found p)) key = [] ∧
      GetFloat64 (viperStore (FileOutcome.found p)) key = 0) ∧
    (∀ v, patchStore p key = some v →
      GetString (viperStore (FileOutcome.found p)) key = v.toGoString ∧
      GetInt (viperStore (FileOutcome.found p)) key = v.toGoInt ∧
      GetUint64 (viperStore (FileOutcome.found p)) key = v.toGoUint64 ∧
      GetBool (viperStore (FileOutcome.found p)) key = v.toGoBool ∧
      GetStringSlice (viperStore (FileOutcome.found p)) key = v.toGoStringSlice ∧
      GetFloat64 (viperStore (FileOutcome.found p)) key = v.toGoFloat64) ∧
    (∀ k : String, viperStore FileOutcome.notFound k = none) := by
  refine ⟨fun h => ?_, fun v h => ?_, fun k => rfl⟩ <;>
    simp [GetString, GetInt, GetUint64, GetBool, GetStringSlice, GetFloat64, viperStore, h]

/-- Claim C4, witness: on an empty file patch, "http.port" is absent and
`GetInt` returns 0. -/
theorem C4_accessor_file_layer_only_witness :
    GetInt (viperStore (FileOutcome.found {})) "http.port" = 0 :=
  ((C4_accessor_file_layer_only {} "http.port").1 rfl).2.1

/-- Claim C5, counterexample: a prefix overridden via the configuration file
is not used for the derived addresses.  With no environment variables and a
file setting subnet_prefix="10.0.0", the resolved SubnetPrefix is "10.0.0"
but the broker address was derived from the fallback prefix "169.254.15" and
does not even contain the resolved prefix. -/
theorem C5_counterexample :
    (NewConfig emptyEnv (FileOutcome.found { subnetPrefix := some "10.0.0" })).toOption.map
        (fun c => (c.SubnetPrefix, c.MQ.NATS.Server, containsSub c.MQ.NATS.Server c.SubnetPrefix))
      = some ("10.0.0", "nats://169.254.15.13:4222", false) := by
  decide

/-- Claim C5 (amended): only a prefix overridden via the environment is used
consistently.  When SUBNET_PREFIX is non-empty, the per-service host
variables and escape hatches are unset, and the file does not set the broker
address or RAG base URL, every prefix-derived address in the resolved
configuration is computed from the same prefix as the resolved SubnetPrefix
field; a prefix set only in the file does not propagate (see the
counterexample). -/
theorem C5_env_prefix_consistency (env : Env) (p : FilePatch) (c : Config)
    (hp : env "SUBNET_PREFIX" ≠ "")
    (hn : env "NATS_HOST" = "") (hr : env "RAG_HOST" = "")
    (hms : env "MQ_NATS_SERVER" = "") (hrb : env "RAG_CT_RAG_BASE_URL" = "")
    (hps : p.natsServer = none) (hpb : p.ctragBaseURL = none)
    (h : NewConfig env (FileOutcome.found p) = Except.ok c) :
    c.SubnetPrefix = env "SUBNET_PREFIX" ∧
    c.MQ.NATS.Server = "nats://" ++ c.SubnetPrefix ++ ".13:4222" ∧
    c.RAG.CTRAG.BaseURL = "http://" ++ c.SubnetPrefix ++ ".18:8080/api/v1" := by
  simp only [NewConfig, Except.ok.injEq] at h
  subst h
  simp [overrideWithEnv_eq, applyPatch, defaultConfig, getNatsServer, getRagBaseURL,
    hp, hn, hr, hms, hrb, hps, hpb]

/-- Claim C5, witness: with SUBNET_PREFIX="10.0.0" in the environment and an
empty file, the resolved broker address is "nats://10.0.0.13:4222". -/
theorem C5_env_prefix_consistency_witness :
    (overrideWithEnv (envOf [("SUBNET_PREFIX", "10.0.0")])
        (applyPatch {} (defaultConfig (envOf [("SUBNET_PREFIX", "10.0.0")])))).MQ.NATS.Server
      = "nats://10.0.0.13:4222" :=
  ((C5_env_prefix_consistency (envOf [("SUBNET_PREFIX", "10.0.0")]) {} _
      (by decide) rfl rfl rfl rfl rfl rfl rfl).2.1).trans rfl

/-- Claim C6: the environment-override pass is idempotent: for every
configuration and every fixed environment, applying `overrideWithEnv` twice
yields the same result as applying it once. -/
theorem C6_override_idempotent (env : Env) (c : Config) :
    overrideWithEnv env (overrideWithEnv env c) = overrideWithEnv env c := by
  simp only [overrideWithEnv_eq, Config.mk.injEq, PGConfig.mk.injEq, MQConfig.mk.injEq,
    NATSConfig.mk.injEq, RAGConfig.mk.injEq, CTRAGConfig.mk.injEq, RedisConfig.mk.injEq,
    AuthConfig.mk.injEq, JWTConfig.mk.injEq, S3Config.mk.injEq]
  and_intros <;> first
  | trivial
  | (split_ifs <;> rfl)

/-- Claim C7: if MQ_NATS_SERVER is set and non-empty, the resolved broker
server address equals exactly that string, for every file outcome on which
resolution succeeds and every other environment content (in particular any
network prefix and NATS_HOST value). -/
theorem C7_broker_escape_hatch (env : Env) (file : FileOutcome) (c : Config)
    (hm : env "MQ_NATS_SERVER" ≠ "")
    (h : NewConfig env file = Except.ok c) :
    c.MQ.NATS.Server = env "MQ_NATS_SERVER" := by
  cases file with
  | readError => exact Except.noConfusion h
  | foundUnmergeable => exact Except.noConfusion h
  | notFound =>
      simp only [NewConfig, Except.ok.injEq] at h
      subst h
      simp [overrideWithEnv_eq, hm]
  | found p =>
      simp only [NewConfig, Except.ok.injEq] at h
      subst h
      simp [overrideWithEnv_eq, hm]

/-- Claim C7, witness: MQ_NATS_SERVER="nats://srv:9" wins over NATS_HOST,
SUBNET_PREFIX and a file-supplied broker address. -/
theorem C7_broker_escape_hatch_witness :
    (overrideWithEnv
        (envOf [("MQ_NATS_SERVER", "nats://srv:9"), ("NATS_HOST", "h"), ("SUBNET_PREFIX", "1.2.3")])
        (applyPatch { natsServer := some "nats://file:1" }
          (defaultConfig
            (envOf [("MQ_NATS_SERVER", "nats://srv:9"), ("NATS_HOST", "h"), ("SUBNET_PREFIX", "1.2.3")])))).MQ.NATS.Server
      = "nats://srv:9" :=
  (C7_broker_escape_hatch
      (envOf [("MQ_NATS_SERVER", "nats://srv:9"), ("NATS_HOST", "h"), ("SUBNET_PREFIX", "1.2.3")])
      (FileOutcome.found { natsServer := some "nats://file:1" }) _ (by decide) rfl).trans rfl

/-- Claim C8, counterexample: with no file and no environment variables,
resolution succeeds, but the log level field of the result is 0, so not
every non-secret field holds a non-zero default as the claim states. -/
theorem C8_counterexample :
    NewConfig emptyEnv FileOutcome.notFound = Except.ok (defaultConfig emptyEnv) ∧
    (defaultConfig emptyEnv).Log.Level = 0 :=
  ⟨rfl, rfl⟩

/-- Claim C8 (amended): with no file and no environment variables,
`NewConfig` succeeds and returns the defaults; every string field holds a
non-empty documented default except the five secrets (admin password, broker
password, cache/store password, signing secret, object-store secret key),
which default to empty; the HTTP port defaults to 8000, and the log level
defaults to 0 (a documented default that is nonetheless zero). -/
theorem C8_default_completeness :
    NewConfig emptyEnv FileOutcome.notFound = Except.ok (defaultConfig emptyEnv) ∧
    (defaultConfig emptyEnv).Log.Level = 0 ∧
    (defaultConfig emptyEnv).HTTP.Port = 8000 ∧
    (defaultConfig emptyEnv).PG.DSN ≠ "" ∧
    (defaultConfig emptyEnv).MQ.type ≠ "" ∧
    (defaultConfig emptyEnv).MQ.NATS.Server ≠ "" ∧
    (defaultConfig emptyEnv).MQ.NATS.User ≠ "" ∧
    (defaultConfig emptyEnv).RAG.Provider ≠ "" ∧
    (defaultConfig emptyEnv).RAG.CTRAG.BaseURL ≠ "" ∧
    (defaultConfig emptyEnv).RAG.CTRAG.APIKey ≠ "" ∧
    (defaultConfig emptyEnv).Redis.Addr ≠ "" ∧
    (defaultConfig emptyEnv).Auth.type ≠ "" ∧
    (defaultConfig emptyEnv).S3.Endpoint ≠ "" ∧
    (defaultConfig emptyEnv).S3.AccessKey ≠ "" ∧
    (defaultConfig emptyEnv).CaddyAPI ≠ "" ∧
    (defaultConfig emptyEnv).SubnetPrefix ≠ "" ∧
    (defaultConfig emptyEnv).AdminPassword = "" ∧
    (defaultConfig emptyEnv).MQ.NATS.Password = "" ∧
    (defaultConfig emptyEnv).Redis.Password = "" ∧
    (defaultConfig emptyEnv).Auth.JWT.Secret = "" ∧
    (defaultConfig emptyEnv).S3.SecretKey = "" := by
  refine ⟨rfl, ?_⟩
  decide

/-- Claim C9: frame property of the environment-override pass: for every
configuration and environment, `overrideWithEnv` leaves every field outside
the allow-list unchanged — log level, HTTP port, broker type, broker user,
RAG provider, RAG API key, auth type, object-store access key and the caddy
socket path are identical before and after the pass. -/
theorem C9_frame (env : Env) (c : Config) :
    (overrideWithEnv env c).Log.Level = c.Log.Level ∧
    (overrideWithEnv env c).HTTP.Port = c.HTTP.Port ∧
    (overrideWithEnv env c).MQ.type = c.MQ.type ∧
    (overrideWithEnv env c).MQ.NATS.User = c.MQ.NATS.User ∧
    (overrideWithEnv env c).RAG.Provider = c.RAG.Provider ∧
    (overrideWithEnv env c).RAG.CTRAG.APIKey = c.RAG.CTRAG.APIKey ∧
    (overrideWithEnv env c).Auth.type = c.Auth.type ∧
    (overrideWithEnv env c).S3.AccessKey = c.S3.AccessKey ∧
    (overrideWithEnv env c).CaddyAPI = c.CaddyAPI := by
  simp [overrideWithEnv_eq]

/-- Claim C10: within the override pass the full-DSN escape hatch outranks
the password override: when PG_DSN and POSTGRES_PASSWORD are both set and
non-empty the resolved DSN is exactly the PG_DSN string; when only
POSTGRES_PASSWORD is set the resolved DSN is the whole fixed template (host
from POSTGRES_HOST or its default) with the environment password, whatever
the file contained. -/
theorem C10_pg_dsn_outranks_password (env : Env) (file : FileOutcome) (c : Config)
    (h : NewConfig env file = Except.ok c) :
    (env "PG_DSN" ≠ "" → env "POSTGRES_PASSWORD" ≠ "" → c.PG.DSN = env "PG_DSN") ∧
    (env "POSTGRES_PASSWORD" ≠ "" → env "PG_DSN" = "" →
      c.PG.DSN = postgresDSN (getPostgresHost env) (env "POSTGRES_PASSWORD")) := by
  cases file with
  | readError => exact Except.noConfusion h
  | foundUnmergeable => exact Except.noConfusion h
  | notFound =>
      simp only [NewConfig, Except.ok.injEq] at h
      subst h
      refine ⟨fun h1 _ => ?_, fun h1 h2 => ?_⟩ <;> simp [overrideWithEnv_eq, *]
  | found p =>
      simp only [NewConfig, Except.ok.injEq] at h
      subst h
      refine ⟨fun h1 _ => ?_, fun h1 h2 => ?_⟩ <;> simp [overrideWithEnv_eq, *]

/-- Claim C10, witness: with POSTGRES_PASSWORD="p", PG_DSN="full-dsn" and a
file-supplied DSN, the resolved DSN is exactly "full-dsn". -/
theorem C10_pg_dsn_outranks_password_witness :
    (overrideWithEnv (envOf [("POSTGRES_PASSWORD", "p"), ("PG_DSN", "full-dsn")])
        (applyPatch { pgDsn := some "file-dsn" }
          (defaultConfig (envOf [("POSTGRES_PASSWORD", "p"), ("PG_DSN", "full-dsn")])))).PG.DSN
      = "full-dsn" :=
  ((C10_pg_dsn_outranks_password (envOf [("POSTGRES_PASSWORD", "p"), ("PG_DSN", "full-dsn")])
      (FileOutcome.found { pgDsn := some "file-dsn" }) _ rfl).1 (by decide) (by decide)).trans rfl

end PandaWiki
